import Mathlib

/-!
# Verification of the YCbCr PSNR tool (`psnr.py`)

A shallow embedding, in Lean 4, of the pixel-format layout model and the
PSNR comparison pipeline of `psnr.py` (Python 2: `/` on integers is floor
division, which is `Nat.div` here).

Conventions of the embedding:

* A Python `slice(start, stop, step)` object becomes the `Slice` structure;
  `slice(a, b)` has step 1.
* The byte positions addressed by a slice, walked by its stride and not
  clamped by any array, are `sliceList`; its length (the Python slice
  length over a sufficiently long array) is `sliceLen`.
* Each format class's `get_layout` returns the triple of slices in the
  order `(Y, Cb, Cr)` — this is how `YCbCr.__read_frame` consumes the
  tuple (`yy = raw[layout[0]]`, `cb = raw[layout[1]]`,
  `cr = raw[layout[2]]`).
* `np.fromfile(fd, dtype=np.uint8, count=n)` returns at most `n` items,
  truncated at end of file without raising; it is embedded as `List.take`.
* Python exceptions that the comparison code can actually raise are the
  constructors of `PyErr`; fallible steps return `Except PyErr _`.
* A float `NaN` is embedded as `none : Option Real`; ordinary float
  values are idealised as reals.
-/

namespace PsnrPy

/-- A Python `slice(start, stop, step)` with a positive step. `slice(a, b)`
has `step = 1`. -/
structure Slice where
  start : Nat
  stop : Nat
  step : Nat
deriving DecidableEq, Repr

/-- Number of positions a slice addresses when walked from `start` by
`step` up to (excluding) `stop`: `ceil((stop - start) / step)`, with
truncated subtraction giving 0 when `stop ≤ start`, exactly the Python
slice length over an array of length at least `stop`. -/
def sliceLen (s : Slice) : Nat :=
  (s.stop - s.start + (s.step - 1)) / s.step

/-- The byte positions addressed by a slice, in walking order. -/
def sliceList (s : Slice) : List Nat :=
  List.range' s.start (sliceLen s) s.step

/-- `Y.get_420_partitioning`: boundaries
`(y-start, y-stop, cb-start, cb-stop, cr-start, cr-stop)` =
`(0, wh, wh, wh/4*5, wh/4*5, wh/2*3)` with Python 2 floor division. -/
def get_420_partitioning (w h : Nat) : Nat × Nat × Nat × Nat × Nat × Nat :=
  let wh := w * h
  (0, wh, wh, wh / 4 * 5, wh / 4 * 5, wh / 2 * 3)

/-- `Y.get_422_partitioning`: `(0, wh, wh, wh/2*3, wh/2*3, wh*2)`. -/
def get_422_partitioning (w h : Nat) : Nat × Nat × Nat × Nat × Nat × Nat :=
  let wh := w * h
  (0, wh, wh, wh / 2 * 3, wh / 2 * 3, wh * 2)

/-- The closed set of format classes registered in the `RW` dictionary. -/
inductive Fmt where
  | YV12
  | IYUV
  | NV12
  | UYVY
  | YVYU
  | YUY2
  | Y422
deriving DecidableEq, Repr

/-- `get_frame_size` of each format class: `w*h*3/2` for the 4:2:0
classes (YV12, IYUV, NV12), `w*h*2` for the 4:2:2 classes
(UYVY, YVYU, YUY2, Y422); Python 2 floor division. -/
def get_frame_size (f : Fmt) (w h : Nat) : Nat :=
  match f with
  | .YV12 => w * h * 3 / 2
  | .IYUV => w * h * 3 / 2
  | .NV12 => w * h * 3 / 2
  | .UYVY => w * h * 2
  | .YVYU => w * h * 2
  | .YUY2 => w * h * 2
  | .Y422 => w * h * 2

/-- `get_layout` of each format class, as the `(Y, Cb, Cr)` slice triple
consumed by `YCbCr.__read_frame`:

* `YV12.get_layout` returns `(slice(p0,p1), slice(p2,p3), slice(p4,p5))`
  over the 4:2:0 partitioning;
* `IYUV.get_layout` returns `(slice(p0,p1), slice(p4,p5), slice(p2,p3))`;
* `NV12.get_layout` returns
  `(slice(p0,p1), slice(p2,p5,2), slice(p2+1,p5,2))`;
* `UYVY.get_layout` returns `(slice(1,fs,2), slice(0,fs,4), slice(2,fs,4))`;
* `YVYU.get_layout` returns `(slice(0,fs,2), slice(3,fs,4), slice(1,fs,4))`;
* `YUY2.get_layout` returns `(slice(0,fs,2), slice(1,fs,4), slice(3,fs,4))`;
* `Y422.get_layout` returns the three step-1 slices of the 4:2:2
  partitioning. -/
def get_layout (f : Fmt) (w h : Nat) : Slice × Slice × Slice :=
  match f with
  | .YV12 =>
      match get_420_partitioning w h with
      | (p0, p1, p2, p3, p4, p5) => (⟨p0, p1, 1⟩, ⟨p2, p3, 1⟩, ⟨p4, p5, 1⟩)
  | .IYUV =>
      match get_420_partitioning w h with
      | (p0, p1, p2, p3, p4, p5) => (⟨p0, p1, 1⟩, ⟨p4, p5, 1⟩, ⟨p2, p3, 1⟩)
  | .NV12 =>
      match get_420_partitioning w h with
      | (p0, p1, p2, _, _, p5) => (⟨p0, p1, 1⟩, ⟨p2, p5, 2⟩, ⟨p2 + 1, p5, 2⟩)
  | .UYVY =>
      let fs := w * h * 2
      (⟨1, fs, 2⟩, ⟨0, fs, 4⟩, ⟨2, fs, 4⟩)
  | .YVYU =>
      let fs := w * h * 2
      (⟨0, fs, 2⟩, ⟨3, fs, 4⟩, ⟨1, fs, 4⟩)
  | .YUY2 =>
      let fs := w * h * 2
      (⟨0, fs, 2⟩, ⟨1, fs, 4⟩, ⟨3, fs, 4⟩)
  | .Y422 =>
      match get_422_partitioning w h with
      | (p0, p1, p2, p3, p4, p5) => (⟨p0, p1, 1⟩, ⟨p2, p3, 1⟩, ⟨p4, p5, 1⟩)

/-- The partition property claimed for a layout: the three slices address
pairwise disjoint byte positions and, walking each slice by its stride,
the total number of addressed positions equals the frame size. -/
def layoutPartitionOk (f : Fmt) (w h : Nat) : Prop :=
  List.Disjoint (sliceList (get_layout f w h).1) (sliceList (get_layout f w h).2.1) ∧
  List.Disjoint (sliceList (get_layout f w h).1) (sliceList (get_layout f w h).2.2) ∧
  List.Disjoint (sliceList (get_layout f w h).2.1) (sliceList (get_layout f w h).2.2) ∧
  (sliceList (get_layout f w h).1).length + (sliceList (get_layout f w h).2.1).length +
    (sliceList (get_layout f w h).2.2).length = get_frame_size f w h

/-- The per-frame skip test of `YCbCr.psnr`, with the length of the
zero-filled reference array as a parameter:
`not (frame2[0].all() == zeros.all())` where
`zeros = np.array([0] * n)`. A numpy integer array's `all()` is true
exactly when every element is nonzero. -/
def includeFrameWithZeros (n : Nat) (y2 : List Int) : Bool :=
  !((y2.all fun x => decide (x ≠ 0)) ==
    ((List.replicate n (0 : Int)).all fun x => decide (x ≠ 0)))

/-- The skip test exactly as the source writes it, with the hardcoded
`zeros = np.array([0] * 311040)`: a frame pair is appended to the
running series exactly when this is true of the second file's luma
plane. -/
def includeFrame (y2 : List Int) : Bool :=
  includeFrameWithZeros 311040 y2

/-- `np.fromfile(fd, dtype=np.uint8, count=n)` on a stream with the given
remaining bytes: it returns at most `n` items, truncated at end of file,
and never raises. -/
def fromfile (stream : List Nat) (count : Nat) : List Nat :=
  stream.take count

/-- Numpy basic slicing of a one-dimensional array by a slice object:
the elements at indices `start, start + step, ...` below
`min(stop, len)`. -/
def applySlice (l : List Int) (s : Slice) : List Int :=
  (List.range' s.start ((min s.stop l.length - s.start + (s.step - 1)) / s.step)
      s.step).filterMap fun i => l[i]?

/-- The per-frame state written by `YCbCr.__read_frame` and returned (as
copies) by `YCbCr.__copy_planes`: the three planes and the whole raw
frame. -/
structure FrameData where
  yy : List Int
  cb : List Int
  cr : List Int
  raw : List Int
deriving DecidableEq, Repr

/-- `YCbCr.__read_frame`: read one frame of `frame_size` bytes from the
stream (`np.fromfile`, truncating without error on a short stream),
widen each byte to a signed integer (`astype(np.int)`), and slice out
the three planes with the input layout. -/
def YCbCr.read_frame (stream : List Nat) (frame_size : Nat)
    (layout : Slice × Slice × Slice) : FrameData :=
  let raw : List Int := (fromfile stream frame_size).map Int.ofNat
  ⟨applySlice raw layout.1, applySlice raw layout.2.1,
    applySlice raw layout.2.2, raw⟩

/-- The squared elementwise differences `(a - b) ** 2` of two equal-length
sample arrays. -/
def sqDiff (a b : List Int) : List Int :=
  List.zipWith (fun x y => (x - y) ^ 2) a b

/-- `((a - b) ** 2).mean()`: exact rational mean of the squared
differences (samples are integers, so no rounding occurs before the
division). -/
def mse (a b : List Int) : ℚ :=
  ((sqDiff a b).sum : ℚ) / ((sqDiff a b).length : ℚ)

/-- The inner `psnr(a, b)` of `YCbCr.psnr`: `float("nan")` (embedded as
`none`) when the mean squared error is 0, otherwise
`10 * np.log10(255 ** 2 / m)` (floats idealised as reals). -/
noncomputable def psnr (a b : List Int) : Option ℝ :=
  if mse a b = 0 then none
  else some (10 * Real.logb 10 ((255 : ℝ) ^ 2 / ((mse a b : ℚ) : ℝ)))

/-- The exceptions the comparison code can actually raise:
`NameError` from the format validation in `YCbCr.__init__`,
`AttributeError` from touching the missing `num_frames` attribute, and
`ZeroDivisionError` from `sum(yy) / len(yy)` on an empty series. -/
inductive PyErr where
  | nameError
  | attributeError
  | zeroDivision
deriving DecidableEq, Repr

/-- The per-frame composite `(6 * yy[-1] + cb[-1] + cr[-1]) / 8.0`, with
IEEE NaN (embedded as `none`) absorbing. -/
noncomputable def composite (y cb cr : Option ℝ) : Option ℝ :=
  match y, cb, cr with
  | some a, some b, some c => some ((6 * a + b + c) / 8)
  | _, _, _ => none

/-- Python's `sum` over a list of floats, with NaN absorbing. -/
noncomputable def flSum (l : List (Option ℝ)) : Option ℝ :=
  l.foldr
    (fun x acc =>
      match x, acc with
      | some a, some b => some (a + b)
      | _, _ => none)
    (some 0)

/-- `sum(l) / len(l)`: raises `ZeroDivisionError` on an empty list,
otherwise the mean (NaN absorbing). -/
noncomputable def flAvg (l : List (Option ℝ)) : Except PyErr (Option ℝ) :=
  if l.isEmpty then .error .zeroDivision
  else .ok ((flSum l).map fun s => s / (l.length : ℝ))

/-- One frame's extracted planes `(yy, cb, cr)`, the
`__copy_planes()[:-1]` triple. -/
abbrev Planes := List Int × List Int × List Int

/-- The frame loop and final averaging of `YCbCr.psnr`, over the sequence
of already-extracted frame pairs `(frame1, frame2)`: a pair enters the
running series exactly when `includeFrame` accepts the second file's
luma plane; afterwards the four means `sum(xs) / len(xs)` are formed,
the first of which raises `ZeroDivisionError` when the series is
empty. -/
noncomputable def session_psnr (pairs : List (Planes × Planes)) :
    Except PyErr (Option ℝ × Option ℝ × Option ℝ × Option ℝ) :=
  let included := pairs.filter fun p => includeFrame p.2.1
  let yy := included.map fun p => psnr p.1.1 p.2.1
  let cb := included.map fun p => psnr p.1.2.1 p.2.2.1
  let cr := included.map fun p => psnr p.1.2.2 p.2.2.2
  let bd := included.map fun p =>
    composite (psnr p.1.1 p.2.1) (psnr p.1.2.1 p.2.2.1) (psnr p.1.2.2 p.2.2.2)
  match flAvg yy with
  | .error e => .error e
  | .ok a =>
    match flAvg cb with
    | .error e => .error e
    | .ok b =>
      match flAvg cr with
      | .error e => .error e
      | .ok c =>
        match flAvg bd with
        | .error e => .error e
        | .ok d => .ok (a, b, c, d)

/-- `YCbCr.psnr`, the comparison method (its file I/O replaced by the
sequence of frame pairs the loop reads and extracts). -/
noncomputable def YCbCr.psnr (pairs : List (Planes × Planes)) :
    Except PyErr (Option ℝ × Option ℝ × Option ℝ × Option ℝ) :=
  session_psnr pairs

/-- `self.supported_420` of `YCbCr.__init__`. -/
def supported_420 : List String := ["YV12", "IYUV", "NV12"]

/-- `self.supported_422` of `YCbCr.__init__`. -/
def supported_422 : List String := ["UYVY", "YVYU", "YUY2", "422"]

/-- `self.supported_extra` of `YCbCr.__init__`: just `None`. -/
def supported_extra : List (Option String) := [none]

/-- The full membership list of the format validation:
`supported_420 + supported_422 + supported_extra`. -/
def supportedAll : List (Option String) :=
  (supported_420 ++ supported_422).map some ++ supported_extra

/-- The `RW` reader/writer dictionary of `YCbCr.__init__`, mapping a
format tag to its format class. -/
def RW (tag : String) : Option Fmt :=
  if tag = "YV12" then some .YV12
  else if tag = "IYUV" then some .IYUV
  else if tag = "NV12" then some .NV12
  else if tag = "UYVY" then some .UYVY
  else if tag = "YVYU" then some .YVYU
  else if tag = "YUY2" then some .YUY2
  else if tag = "422" then some .Y422
  else none

/-- The tag under which each format class is registered in `RW`. -/
def tagOf (f : Fmt) : String :=
  match f with
  | .YV12 => "YV12"
  | .IYUV => "IYUV"
  | .NV12 => "NV12"
  | .UYVY => "UYVY"
  | .YVYU => "YVYU"
  | .YUY2 => "YUY2"
  | .Y422 => "422"

/-- The session attributes set by `YCbCr.__init__` that the comparison
uses; each is `none` when the corresponding assignment never runs. -/
structure Session where
  frame_size_in : Option Nat
  layout_in : Option (Slice × Slice × Slice)
  num_frames : Option Nat
  frame_size_out : Option Nat
  layout_out : Option (Slice × Slice × Slice)
deriving DecidableEq, Repr

/-- `YCbCr.__init__` with the file sizes passed in place of the two file
names (`size_fn` for `filename`, `size_diff` for `filename_diff` when
given). Faithful to the source order: validate both format tags against
`supported_420 + supported_422 + supported_extra` (raising `NameError`
otherwise); when `yuv_format_in` is set, build the reader, compute
`frame_size_in` (raising `ZeroDivisionError` if it is 0, as the Python 2
integer division would), take `num_frames` as the minimum of the two
file frame counts, and record the layouts; when `yuv_format_out` is set,
override the output frame size and layout from the writer; finally, when
`num` is truthy, compare it against `self.num_frames` — an
`AttributeError` when that attribute was never set — and lower
`num_frames` to `num` when `num <= num_frames`. -/
def sessionInit (width height : Nat) (size_fn : Nat) (size_diff : Option Nat)
    (fmt_in fmt_out : Option String) (num : Option Nat) :
    Except PyErr Session :=
  if fmt_in ∉ supportedAll then .error .nameError
  else if fmt_out ∉ supportedAll then .error .nameError
  else
    match fmt_in with
    | none =>
      let st1 : Session := ⟨none, none, none, none, none⟩
      let st2 : Session :=
        match fmt_out with
        | some t =>
          match RW t with
          | some f =>
            { st1 with
              frame_size_out := some (get_frame_size f width height)
              layout_out := some (get_layout f width height) }
          | none => st1
        | none => st1
      match num with
      | some c => if c ≠ 0 then .error .attributeError else .ok st2
      | none => .ok st2
    | some t =>
      match RW t with
      | none => .error .nameError
      | some f =>
        let fs := get_frame_size f width height
        if fs = 0 then .error .zeroDivision
        else
          let n1 := size_fn / fs
          let n2 := match size_diff with | some s => s / fs | none => n1
          let nf := min n1 n2
          let lay := get_layout f width height
          let st1 : Session := ⟨some fs, some lay, some nf, some fs, some lay⟩
          let st2 : Session :=
            match fmt_out with
            | some t2 =>
              match RW t2 with
              | some f2 =>
                { st1 with
                  frame_size_out := some (get_frame_size f2 width height)
                  layout_out := some (get_layout f2 width height) }
              | none => st1
            | none => st1
          let st3 : Session :=
            match num with
            | some c =>
              if c ≠ 0 ∧ c ≤ nf then { st2 with num_frames := some c } else st2
            | none => st2
          .ok st3

end PsnrPy

namespace PsnrPy

/-- C1 counterexample: at width 4 and height 4 (so `w*h = 16`), byte 16 —
the first byte after the luma plane — is addressed by the Cr slice of
`IYUV.get_layout` and by the Cb slice of `YV12.get_layout`, the exact
opposite of the claimed assignment (which puts IYUV's Cb first and
YV12's Cr first). -/
theorem c1_claim_counterexample :
    16 ∉ sliceList ((get_layout .IYUV 4 4).2.1) ∧
    16 ∈ sliceList ((get_layout .IYUV 4 4).2.2) ∧
    16 ∉ sliceList ((get_layout .YV12 4 4).2.2) ∧
    16 ∈ sliceList ((get_layout .YV12 4 4).2.1) := by
  decide

/-- C1 (amended): for every positive width and height with `w*h` divisible
by 4, `YV12.get_layout` assigns the Cb plane the byte range
`[w*h, w*h*5/4)` and the Cr plane `[w*h*5/4, w*h*3/2)` (Y then Cb then
Cr), while `IYUV.get_layout` assigns those two chroma ranges in the
opposite order (Y then Cr then Cb): the first chroma block after the
luma plane is Cb for YV12 and Cr for IYUV. -/
theorem c1_chroma_order_amended (w h : Nat) (_hw : 0 < w) (_hh : 0 < h)
    (hd : 4 ∣ w * h) :
    (get_layout .YV12 w h).2.1 = ⟨w * h, w * h * 5 / 4, 1⟩ ∧
    (get_layout .YV12 w h).2.2 = ⟨w * h * 5 / 4, w * h * 3 / 2, 1⟩ ∧
    (get_layout .IYUV w h).2.1 = ⟨w * h * 5 / 4, w * h * 3 / 2, 1⟩ ∧
    (get_layout .IYUV w h).2.2 = ⟨w * h, w * h * 5 / 4, 1⟩ := by
  obtain ⟨k, hk⟩ := hd
  simp only [get_layout, get_420_partitioning, Slice.mk.injEq, true_and,
    and_true]
  rw [hk]
  omega

/-- C1 witness: the amended statement holds at width 4, height 4. -/
theorem c1_chroma_order_amended_witness :
    (get_layout .YV12 4 4).2.1 = ⟨4 * 4, 4 * 4 * 5 / 4, 1⟩ ∧
    (get_layout .YV12 4 4).2.2 = ⟨4 * 4 * 5 / 4, 4 * 4 * 3 / 2, 1⟩ ∧
    (get_layout .IYUV 4 4).2.1 = ⟨4 * 4 * 5 / 4, 4 * 4 * 3 / 2, 1⟩ ∧
    (get_layout .IYUV 4 4).2.2 = ⟨4 * 4, 4 * 4 * 5 / 4, 1⟩ :=
  c1_chroma_order_amended 4 4 (by decide) (by decide) (by decide)

/-- C3 counterexample: for YV12 at width 1 and height 2 (`w*h = 2`, a
positive resolution), the partition property fails: the luma slice
addresses bytes 0 and 1, the Cb slice is empty, the Cr slice addresses
bytes 0, 1 and 2, so the ranges overlap and address 5 positions while
`get_frame_size` is 3. -/
theorem c3_claim_counterexample : ¬ layoutPartitionOk .YV12 1 2 := by
  intro hOk
  exact absurd hOk.2.2.2 (by decide)

/-- C3 (amended): for every one of the seven supported formats and every
positive width and height such that `w*h` is divisible by 4, the three
plane slices returned by `get_layout` address pairwise disjoint byte
positions and the total number of positions they address, walking each
slice by its stride, equals `get_frame_size f w h`. (For `w*h` not
divisible by 4 the Python 2 floor divisions in the 4:2:0 and planar
4:2:2 partitionings make the property fail, as the counterexample
shows.) -/
theorem c3_partition_amended (f : Fmt) (w h : Nat) (hw : 0 < w) (hh : 0 < h)
    (hd : 4 ∣ w * h) : layoutPartitionOk f w h := by
  obtain ⟨k, hk⟩ := hd
  have hpos : 0 < w * h := Nat.mul_pos hw hh
  rw [hk] at hpos
  cases f <;>
    simp only [layoutPartitionOk, get_layout, get_420_partitioning,
      get_422_partitioning, get_frame_size, sliceList, sliceLen,
      List.length_range'] <;>
    rw [hk] <;>
    refine ⟨?_, ?_, ?_, ?_⟩ <;>
    first
      | omega
      | (intro a h1 h2
         rw [List.mem_range'] at h1 h2
         obtain ⟨i, hi, rfl⟩ := h1
         obtain ⟨j, hj, hij⟩ := h2
         omega)

/-- C3 witness: the amended statement holds for NV12 at width 2,
height 2. -/
theorem c3_partition_amended_witness : layoutPartitionOk .NV12 2 2 :=
  c3_partition_amended .NV12 2 2 (by decide) (by decide) (by decide)

/-- C4 counterexample: for UYVY at width 2, height 2, byte 0 is not
addressed by the luma slice (the claim places Y at offsets
`{0, 2, 4, ...}` starting at byte 0), while byte 1 is: the code's
`UYVY.get_layout` starts the Y slice at byte 1. -/
theorem c4_claim_counterexample :
    0 ∉ sliceList ((get_layout .UYVY 2 2).1) ∧
    1 ∈ sliceList ((get_layout .UYVY 2 2).1) := by
  decide

/-- C4 (amended): for the UYVY format, the layout places luma (Y) samples
at byte offsets `{1, 3, 5, ...}` (stride 2 starting at byte 1), Cb (U)
samples at byte offsets `{0, 4, 8, ...}` (stride 4 starting at byte 0),
and Cr (V) samples at byte offsets `{2, 6, 10, ...}` (stride 4 starting
at byte 2) within the `w*h*2`-byte frame. -/
theorem c4_uyvy_offsets_amended (w h i : Nat) :
    (i ∈ sliceList ((get_layout .UYVY w h).1) ↔ i % 2 = 1 ∧ i < w * h * 2) ∧
    (i ∈ sliceList ((get_layout .UYVY w h).2.1) ↔ i % 4 = 0 ∧ i < w * h * 2) ∧
    (i ∈ sliceList ((get_layout .UYVY w h).2.2) ↔ i % 4 = 2 ∧ i < w * h * 2) := by
  simp only [get_layout, sliceList, sliceLen, List.mem_range']
  generalize w * h = n
  refine ⟨⟨?_, ?_⟩, ⟨?_, ?_⟩, ⟨?_, ?_⟩⟩
  · rintro ⟨j, hj, rfl⟩
    omega
  · rintro ⟨h1, h2⟩
    exact ⟨(i - 1) / 2, by omega, by omega⟩
  · rintro ⟨j, hj, rfl⟩
    omega
  · rintro ⟨h1, h2⟩
    exact ⟨i / 4, by omega, by omega⟩
  · rintro ⟨j, hj, rfl⟩
    omega
  · rintro ⟨h1, h2⟩
    exact ⟨(i - 2) / 4, by omega, by omega⟩

/-- An all-zero integer array of positive length has a false numpy
`all()`. -/
lemma replicate_zero_all_false (n : Nat) (hn : 0 < n) :
    ((List.replicate n (0 : Int)).all fun x => decide (x ≠ 0)) = false := by
  cases n with
  | zero => omega
  | succ m => simp [List.replicate_succ]

/-- C2 counterexample: the luma plane `[1, 0]` of the second file contains
the nonzero sample 1, yet the skip test rejects the frame pair (because
not every sample is nonzero), contradicting the claim that such frames
are included in the averages. -/
theorem c2_claim_counterexample :
    includeFrame [1, 0] = false ∧ (1 : Int) ∈ ([1, 0] : List Int) ∧
      (1 : Int) ≠ 0 := by
  refine ⟨?_, by decide, by decide⟩
  unfold includeFrame includeFrameWithZeros
  rw [replicate_zero_all_false 311040 (by norm_num)]
  decide

/-- C2 (amended): a frame pair is excluded from the running PSNR averages
exactly when the second file's luma plane contains at least one sample
equal to 0; it is included exactly when every sample of that plane is
nonzero. -/
theorem c2_skip_rule_amended (y2 : List Int) :
    includeFrame y2 = false ↔ ∃ x ∈ y2, x = 0 := by
  unfold includeFrame includeFrameWithZeros
  rw [replicate_zero_all_false 311040 (by norm_num)]
  simp [List.all_eq_true]

/-- C10: the skip test computed by the code is equivalent to "every sample
of the second file's luma plane is nonzero": the zero-filled reference
array has no influence on the outcome (any positive length gives the
same test, in particular the hardcoded 311040), because both sides of
the comparison reduce to boolean `all()` values and the zero array's
`all()` is always false, for a luma plane of any length (hence any
resolution and format). -/
theorem c10_skip_equiv (y2 : List Int) (n : Nat) (hn : 0 < n) :
    includeFrameWithZeros n y2 = (y2.all fun x => decide (x ≠ 0)) ∧
    includeFrame y2 = (y2.all fun x => decide (x ≠ 0)) := by
  constructor
  · unfold includeFrameWithZeros
    rw [replicate_zero_all_false n hn]
    simp
  · unfold includeFrame includeFrameWithZeros
    rw [replicate_zero_all_false 311040 (by norm_num)]
    simp

/-- C10 witness: at the one-element reference length 1 and the plane
`[2]`, both tests evaluate to that plane's all-nonzero value. -/
theorem c10_skip_equiv_witness :
    includeFrameWithZeros 1 [2] = (([2] : List Int).all fun x => decide (x ≠ 0)) ∧
    includeFrame [2] = (([2] : List Int).all fun x => decide (x ≠ 0)) :=
  c10_skip_equiv [2] 1 (by decide)

/-- C5 counterexample: with only 5 bytes remaining and a frame size of 6
(YV12 at width 2, height 2), reading one frame does not fail: it returns
a raw sample array of length 5, shorter than the frame size — there is
no end-of-stream error in the code. -/
theorem c5_claim_counterexample :
    (YCbCr.read_frame [10, 20, 30, 40, 50] (get_frame_size .YV12 2 2)
        (get_layout .YV12 2 2)).raw.length = 5 ∧
    5 < get_frame_size .YV12 2 2 := by
  decide

/-- C5 (amended): if a stream has fewer than `frame_size` bytes remaining,
reading one frame from it returns a shorter sample array — exactly
`min frame_size remaining` samples — rather than failing:
`np.fromfile` truncates at end of stream and no end-of-stream error
exists; the frame-count computation of `YCbCr.__init__` is what keeps
the loop from reading past either file's end. -/
theorem c5_short_read_amended (stream : List Nat) (fs : Nat)
    (layout : Slice × Slice × Slice) :
    (YCbCr.read_frame stream fs layout).raw.length = min fs stream.length := by
  simp only [YCbCr.read_frame, fromfile, List.length_map, List.length_take]

/-- The squared self-difference array is all zeros. -/
lemma sqDiff_self (a : List Int) : sqDiff a a = List.replicate a.length 0 := by
  induction a with
  | nil => rfl
  | cons x xs ih =>
    simp only [sqDiff, List.zipWith_cons_cons, List.length_cons,
      List.replicate_succ] at ih ⊢
    rw [ih]
    simp

/-- The mean squared error of a sequence against itself is 0. -/
lemma mse_self (a : List Int) : mse a a = 0 := by
  simp [mse, sqDiff_self, List.sum_replicate]

/-- C8: for equal-length sample sequences, if the mean of `(a_i - b_i)^2`
is 0 then `psnr a b` is the not-a-number perfect-match sentinel
(`none`), otherwise it is `10 * log10(255^2 / mse)`; in particular
`psnr a a` yields the sentinel for every non-empty sequence `a`. -/
theorem c8_psnr_metric (a b : List Int) (_hlen : a.length = b.length)
    (_hne : 0 < a.length) :
    (mse a b = 0 → psnr a b = none) ∧
    (mse a b ≠ 0 →
      psnr a b = some (10 * Real.logb 10 ((255 : ℝ) ^ 2 / ((mse a b : ℚ) : ℝ)))) ∧
    psnr a a = none := by
  refine ⟨fun hm => by simp [psnr, hm], fun hm => by simp [psnr, hm], ?_⟩
  simp [psnr, mse_self]

/-- C8 witness: the statement instantiated at `a = [1, 2]`,
`b = [3, 3]`. -/
theorem c8_psnr_metric_witness :
    (mse [1, 2] [3, 3] = 0 → psnr [1, 2] [3, 3] = none) ∧
    (mse [1, 2] [3, 3] ≠ 0 →
      psnr [1, 2] [3, 3] =
        some (10 * Real.logb 10 ((255 : ℝ) ^ 2 / ((mse [1, 2] [3, 3] : ℚ) : ℝ)))) ∧
    psnr [1, 2] [1, 2] = none :=
  c8_psnr_metric [1, 2] [3, 3] (by decide) (by decide)

/-- The skip test rejects the one-sample plane `[0]`. -/
lemma includeFrame_zero : includeFrame [0] = false := by
  unfold includeFrame includeFrameWithZeros
  rw [replicate_zero_all_false 311040 (by norm_num)]
  decide

/-- C6 counterexample: a comparison of one frame pair whose second-file
luma plane is `[0]` (so the pair is skipped and the accumulated series
is empty) ends in a `ZeroDivisionError` from `sum(yy) / len(yy)` — a
generic unrelated exception, not a dedicated no-data error (no such
error exists in the code). -/
theorem c6_claim_counterexample :
    YCbCr.psnr [(([1], [1], [1]), ([0], [1], [1]))] =
      .error .zeroDivision := by
  simp [YCbCr.psnr, session_psnr, includeFrame_zero, flAvg]

/-- C6 (amended): if after the frame loop the accumulated per-frame PSNR
series is empty — every frame pair was rejected by the skip rule, in
particular when the frame count is 0 — the comparison crashes with a
`ZeroDivisionError` from the final mean computation; the code has no
dedicated no-data error and returns no zero or default value. -/
theorem c6_empty_series_amended (pairs : List (Planes × Planes))
    (hAll : ∀ p ∈ pairs, includeFrame p.2.1 = false) :
    YCbCr.psnr pairs = .error .zeroDivision := by
  have hfil : pairs.filter (fun p => includeFrame p.2.1) = [] :=
    List.filter_eq_nil_iff.mpr (by intro a ha; simp [hAll a ha])
  simp [YCbCr.psnr, session_psnr, hfil, flAvg]

/-- C6 witness: a comparison of zero frames ends in the division-by-zero
error. -/
theorem c6_empty_series_amended_witness :
    YCbCr.psnr [] = .error .zeroDivision :=
  c6_empty_series_amended [] (by simp)

/-- Every format tag produced by `tagOf` passes the membership validation
of `YCbCr.__init__`. -/
lemma tag_mem (f : Fmt) : (some (tagOf f)) ∈ supportedAll := by
  cases f <;> decide

/-- Looking each registered tag up in the `RW` dictionary returns its
format class. -/
lemma RW_tagOf (f : Fmt) : RW (tagOf f) = some f := by
  cases f <;> decide

/-- C7: for every supported format and file sizes, with a positive frame
size, the number of frames a comparison session will process is
`N = min(floor(size_a / frame_size), floor(size_b / frame_size))`, the
cap `num` lowering it further to `min(N, num)` when a positive cap is
given; in particular, when file B holds one fewer full frame than file
A, exactly `N_b = floor(size_b / frame_size)` frames are processed. -/
theorem c7_num_frames (f : Fmt) (w h sA sB cap : Nat)
    (hfs : 0 < get_frame_size f w h) :
    (sessionInit w h sA (some sB) (some (tagOf f)) none none =
      .ok ⟨some (get_frame_size f w h), some (get_layout f w h),
        some (min (sA / get_frame_size f w h) (sB / get_frame_size f w h)),
        some (get_frame_size f w h), some (get_layout f w h)⟩) ∧
    (0 < cap →
      sessionInit w h sA (some sB) (some (tagOf f)) none (some cap) =
      .ok ⟨some (get_frame_size f w h), some (get_layout f w h),
        some (min (min (sA / get_frame_size f w h) (sB / get_frame_size f w h)) cap),
        some (get_frame_size f w h), some (get_layout f w h)⟩) ∧
    (sB / get_frame_size f w h + 1 = sA / get_frame_size f w h →
      sessionInit w h sA (some sB) (some (tagOf f)) none none =
      .ok ⟨some (get_frame_size f w h), some (get_layout f w h),
        some (sB / get_frame_size f w h),
        some (get_frame_size f w h), some (get_layout f w h)⟩) := by
  refine ⟨?_, fun hcap => ?_, fun hB => ?_⟩
  · unfold sessionInit
    rw [if_neg (not_not_intro (tag_mem f)), if_neg (by decide)]
    simp only [RW_tagOf]
    rw [if_neg (by omega)]
  · unfold sessionInit
    rw [if_neg (not_not_intro (tag_mem f)), if_neg (by decide)]
    simp only [RW_tagOf]
    rw [if_neg (by omega)]
    by_cases hc :
        cap ≤ min (sA / get_frame_size f w h) (sB / get_frame_size f w h)
    · rw [if_pos (by exact ⟨by omega, hc⟩)]
      simp only [Except.ok.injEq, Session.mk.injEq, Option.some.injEq,
        and_true, true_and]
      omega
    · rw [if_neg (by intro hh2; exact hc hh2.2)]
      simp only [Except.ok.injEq, Session.mk.injEq, Option.some.injEq,
        and_true, true_and]
      omega
  · unfold sessionInit
    rw [if_neg (not_not_intro (tag_mem f)), if_neg (by decide)]
    simp only [RW_tagOf]
    rw [if_neg (by omega)]
    simp only [Except.ok.injEq, Session.mk.injEq, Option.some.injEq,
      and_true, true_and]
    omega

/-- C7 witness: YV12 at 4x4 (frame size 24), file A of 72 bytes (3
frames), file B of 48 bytes (2 frames), cap 1: without a cap 2 frames
are processed, with the cap 1, and file B holding one fewer frame than
file A gives exactly 2 frames. -/
theorem c7_num_frames_witness :
    (sessionInit 4 4 72 (some 48) (some (tagOf .YV12)) none none =
      .ok ⟨some (get_frame_size .YV12 4 4), some (get_layout .YV12 4 4),
        some (min (72 / get_frame_size .YV12 4 4) (48 / get_frame_size .YV12 4 4)),
        some (get_frame_size .YV12 4 4), some (get_layout .YV12 4 4)⟩) ∧
    (0 < 1 →
      sessionInit 4 4 72 (some 48) (some (tagOf .YV12)) none (some 1) =
      .ok ⟨some (get_frame_size .YV12 4 4), some (get_layout .YV12 4 4),
        some (min (min (72 / get_frame_size .YV12 4 4) (48 / get_frame_size .YV12 4 4)) 1),
        some (get_frame_size .YV12 4 4), some (get_layout .YV12 4 4)⟩) ∧
    (48 / get_frame_size .YV12 4 4 + 1 = 72 / get_frame_size .YV12 4 4 →
      sessionInit 4 4 72 (some 48) (some (tagOf .YV12)) none none =
      .ok ⟨some (get_frame_size .YV12 4 4), some (get_layout .YV12 4 4),
        some (48 / get_frame_size .YV12 4 4),
        some (get_frame_size .YV12 4 4), some (get_layout .YV12 4 4)⟩) :=
  c7_num_frames .YV12 4 4 72 48 1 (by decide)

/-- C9: constructing a comparison session with `yuv_format_in = None` and
`yuv_format_out = None` passes the format validation — it never raises
the unsupported-format `NameError`, whatever the cap — even though
`None` is not among the seven published format tags; and with
`yuv_format_in = None` (and no cap) the construction succeeds with no
frame size, no layout and no frame count computed. -/
theorem c9_none_format (w h sA : Nat) (sdiff : Option Nat)
    (cap : Option Nat) :
    sessionInit w h sA sdiff none none cap ≠ .error .nameError ∧
    sessionInit w h sA sdiff none none none =
      .ok ⟨none, none, none, none, none⟩ ∧
    (none : Option String) ∉ (supported_420 ++ supported_422).map some := by
  refine ⟨?_, ?_, by decide⟩
  · unfold sessionInit
    rw [if_neg (by decide), if_neg (by decide)]
    cases cap with
    | none => simp
    | some c =>
      by_cases hc : c = 0
      · simp [hc]
      · simp [hc]
  · unfold sessionInit
    rw [if_neg (by decide), if_neg (by decide)]

end PsnrPy
